import Mathlib

/-!
Verification of the Lacework events trigger
(`Lacework/lacework_module/lacework_connector.py`) against its
natural-language specification.

The connector is shallowly embedded: the drain loop `forward_next_batches`
becomes a fuel-indexed step function over an explicit loop state, with the
observable side effects (calls to `push_events_to_intakes`, writes to the
persisted cursor, updates of the `EVENTS_LAG` gauge) recorded as an ordered
event trace.  External collaborators (the HTTP client, `orjson.dumps`,
`datetime.strptime(...).timestamp()`, `time.time()`, the `self.running`
flag) are parameters of an environment record.  Pure logging calls and the
monotone Prometheus counters (`INCOMING_EVENTS`, `OUTCOMING_EVENTS`,
`FORWARD_EVENTS_DURATION`) are omitted from the trace: they influence no
control flow and no claim mentions them.
-/

namespace Lacework

/-- One event record of a Lacework page (an entry of the response's `data`
list).  The code reads only the `"startTime"` field of a record
(`item["startTime"]` / `item.get("startTime")`); every other field is kept
opaque in `payload`.  Records are assumed to carry a `startTime` key — the
source would raise `KeyError` otherwise. -/
structure Item where
  startTime : String
  payload : String
deriving DecidableEq, Repr

/-- The parsed JSON body returned by `get_next_events` (a Python dict).
`nextPage` is the result of
`batch.get("content", {}).get("paging", {}).get("urls", {}).get("nextPage")`
and `data` is `batch.get("data", [])`. -/
structure Batch where
  nextPage : Option String
  data : List Item
deriving DecidableEq, Repr

/-- The Python exceptions relevant to the connector:
`requests.exceptions.HTTPError`, `urllib3.exceptions.HTTPError`
(imported as `BaseHTTPError`), `AttributeError`, and a stand-in for any
other exception class. -/
inductive PyExc
  | httpError
  | baseHttpError
  | attributeError
  | otherExc
deriving DecidableEq, Repr

/-- Observable side effects of one drain cycle, in program order:
`push msgs` is a call `self.push_events_to_intakes(events=msgs)`,
`cursorWrite c` is the persisted-store write `self.cursor = cursor`
(the `cursor.setter`, lines 44–47), and `lagSet v` is
`EVENTS_LAG.labels(...).set(v)`. -/
inductive Event
  | push (msgs : List String)
  | cursorWrite (c : Option String)
  | lagSet (v : Int)
deriving DecidableEq, Repr

def Event.isPush : Event → Bool
  | .push _ => true
  | _ => false

def Event.isCursorWrite : Event → Bool
  | .cursorWrite _ => true
  | _ => false

/-- Line 51: `max(self.configuration.chunk_size, 1000)` — the value of the
cached property `pagination_limit`, used both as the page-size request
parameter and as the flush threshold of the batch accumulator. -/
def pagination_limit (chunk_size : Nat) : Nat := max chunk_size 1000

/-- Python truthiness of a `str | None` value: `None` and the empty string
are falsy (`if cursor:` on line 96). -/
def pyTruthyStr (c : Option String) : Bool :=
  match c with
  | none => false
  | some s => !s.isEmpty

/-- The request parameters assembled by `get_next_events` (lines 90–100). -/
structure RequestParams where
  limit : Nat
  cursor : Option String
  startTime : Option Int
deriving DecidableEq, Repr

/-- Lines 90–100: `parameters = {"limit": self.pagination_limit}`; if the
cursor is truthy it is passed as the `cursor` parameter, otherwise
`parameters["startTime"] = int(time.time()) - 300`. -/
def build_parameters (chunk_size : Nat) (cursor : Option String) (now : Int) :
    RequestParams :=
  if pyTruthyStr cursor then
    { limit := pagination_limit chunk_size, cursor := cursor, startTime := none }
  else
    { limit := pagination_limit chunk_size, cursor := none, startTime := some (now - 300) }

/-- The vendor's HTTP response as seen by `get_next_events`: the `ok`
flag/status of the `requests` response, and the parsed JSON body. -/
structure HttpResponse where
  ok : Bool
  body : Batch
deriving Repr

/-- Lines 89–117 of `get_next_events`: build the parameters, issue the
request (`respond` abstracts `self.client.list_alerts`), log and return
`None` when `response.ok` is false, otherwise return `response.json()`.
The error-log call itself is omitted from the model. -/
def get_next_events (chunk_size : Nat) (cursor : Option String) (now : Int)
    (respond : RequestParams → HttpResponse) : Option Batch :=
  let response := respond (build_parameters chunk_size cursor now)
  if response.ok then some response.body else none

/-- Python's strict comparison `a < b` on `str` values: lexicographic
comparison of the code-point sequences, i.e. the strict order on
`String.data`. -/
def pyStrLt (a b : String) : Bool := decide (a.data < b.data)

/-- Python's binary `max` on two strings: keeps the first argument unless
the second is strictly greater. -/
def strMax (a b : String) : String := if pyStrLt a b then b else a

/-- Python's `max(items, key=lambda item: item["startTime"])` over a
non-empty tail: the current maximum is replaced only when the new item's
key is strictly greater, so the first item attaining the maximal
`startTime` is kept. -/
def pyMax1 (a : Item) : List Item → Item
  | [] => a
  | b :: l => pyMax1 (if pyStrLt a.startTime b.startTime then b else a) l

/-- `max(items, key=lambda item: item["startTime"])` (line 124).  Python
raises `ValueError` on an empty iterable; the only call site guards with
`len(items) > 0`, so the empty case is `none` here. -/
def pyMaxByStartTime : List Item → Option Item
  | [] => none
  | a :: l => some (pyMax1 a l)

/-- Lines 119–126, `_get_most_recent_timestamp_from_items`: select the
record with the maximal `startTime` string and parse that field with
`datetime.strptime(..., RFC3339_STRICT_FORMAT).timestamp()`.  The parse is
the external parameter `parseTs`. -/
def get_most_recent_timestamp_from_items (parseTs : String → Int)
    (items : List Item) : Option Int :=
  (pyMaxByStartTime items).map (fun it => parseTs it.startTime)

/-- Python attribute access `x.data` on line 146, where
`x = self.get_next_events(cursor)` has type `dict | None` (a dict produced
by `response.json()`, or `None` on a failed fetch).  Neither a `dict` nor
`None` has a `data` attribute, so the access raises `AttributeError`
unconditionally and never produces a value. -/
def getattrData (_x : Option Batch) : Except PyExc (List Item) :=
  Except.error PyExc.attributeError

/-- `max` of a list of Python strings (the generator on line 146 feeds
`max` with the `startTime` strings), `none` on the empty list. -/
def listMaxString : List String → Option String
  | [] => none
  | a :: l => some (l.foldl strMax a)

/-- The external collaborators of one drain cycle.
`fetch k c` is the result of the `k`-th call to `self.get_next_events`
during the cycle, issued with the in-memory cursor `c` (the index `k`
captures the evolution of external server state between calls);
`running k` is the value of the `self.running` flag at its `k`-th read;
`chunkSize` is `configuration.chunk_size`; `dumps` is
`orjson.dumps(·).decode("utf-8")`; `parseTs` is the RFC3339 timestamp
parse; `now` is `int(time.time())`. -/
structure Env where
  fetch : Nat → Option String → Option Batch
  running : Nat → Bool
  chunkSize : Nat
  dumps : Item → String
  parseTs : String → Int
  now : Int

/-- The mutable state of the drain loop in `forward_next_batches`:
`hasMore` is `has_more_messages` (the tuple `(True,)` assigned on line 145
is truthy, so it is modeled as `true`), `cursor` is the local variable
`cursor`, `messages` the accumulated serialized records, `k` the number of
`get_next_events` calls made so far, `i` the number of reads of
`self.running`, and `events` the side effects emitted so far. -/
structure LoopState where
  hasMore : Bool
  cursor : Option String
  messages : List String
  k : Nat
  i : Nat
  events : List Event
deriving DecidableEq, Repr

/-- Outcome of one execution of the loop body (lines 138–162):
fall through to the next condition check (`cont`), execute `break`
(`brk`), or raise an exception (`raise`, with the events emitted before
the raise). -/
inductive StepOut
  | cont (s : LoopState)
  | brk (s : LoopState)
  | raise (e : PyExc) (events : List Event)
deriving DecidableEq, Repr

/-- Result of a whole drain cycle: normal return (`ok`), an escaped
exception (`exc`), or exhausted fuel (`fuelOut`, never reached with
enough fuel — the loop body runs at most once per cycle because the only
assignment making `has_more_messages` truthy again is followed by an
unconditional raise). -/
structure DrainOut where
  cursor : Option String
  events : List Event
  k : Nat
  i : Nat
deriving DecidableEq, Repr

inductive DrainResult
  | ok (out : DrainOut)
  | exc (e : PyExc) (events : List Event)
  | fuelOut
deriving DecidableEq, Repr

/-- Lines 148–162, the part of the loop body after the pagination check:
update the lag gauge when the page is non-empty, append the serialized
records to `messages`, and flush (one `push_events_to_intakes` call with
the whole buffer, then clear the buffer) when
`len(messages) > self.pagination_limit`. -/
def afterPaging (env : Env) (s : LoopState) (b : Batch) : StepOut :=
  -- items = batch.get("data", [])
  let items := b.data
  -- if len(items) > 0: EVENTS_LAG.set(int(time.time() - most_recent_timestamp_seen))
  let s :=
    if 0 < items.length then
      match get_most_recent_timestamp_from_items env.parseTs items with
      | some ts => { s with events := s.events ++ [Event.lagSet (env.now - ts)] }
      | none => s
    else s
  -- for message in items: messages.append(orjson.dumps(message).decode("utf-8"))
  let s := { s with messages := s.messages ++ items.map env.dumps }
  -- if len(messages) > self.pagination_limit: push_events_to_intakes; messages = []
  if pagination_limit env.chunkSize < s.messages.length then
    StepOut.cont { s with events := s.events ++ [Event.push s.messages], messages := [] }
  else
    StepOut.cont s

/-- Lines 138–162, one execution of the body of
`while has_more_messages and self.running`. -/
def body (env : Env) (s : LoopState) : StepOut :=
  -- has_more_messages = False
  let s := { s with hasMore := false }
  -- batch = self.get_next_events(cursor)
  let batch := env.fetch s.k s.cursor
  let s := { s with k := s.k + 1 }
  match batch with
  | none => StepOut.brk s          -- if batch is None: break
  | some b =>
    -- if batch.get("content", {}).get("paging", {}).get("urls", {}).get("nextPage") != None:
    if b.nextPage.isSome then
      -- has_more_messages = True,   (a one-element tuple; truthy)
      let s := { s with hasMore := true }
      -- cursor = max(item.get("startTime") for item in self.get_next_events(cursor).data)
      let dup := env.fetch s.k s.cursor
      let s := { s with k := s.k + 1 }
      match getattrData dup with
      | Except.error e => StepOut.raise e s.events
      | Except.ok items =>
        -- unreachable: the `.data` access always raises
        let s := { s with cursor := listMaxString (items.map Item.startTime) }
        afterPaging env s b
    else
      afterPaging env s b

/-- Lines 164–171, executed after the loop exits normally: write the
in-memory cursor back to the persistent store, then push any leftover
messages (or log "No messages to forward"). -/
def finalize (s : LoopState) : DrainResult :=
  -- self.cursor = cursor
  let evs := s.events ++ [Event.cursorWrite s.cursor]
  -- if messages: push_events_to_intakes(events=messages)
  let evs := if s.messages.isEmpty then evs else evs ++ [Event.push s.messages]
  DrainResult.ok { cursor := s.cursor, events := evs, k := s.k, i := s.i }

/-- The `while has_more_messages and self.running` loop (lines 137–162)
followed by the epilogue (lines 164–171).  The conjunction short-circuits:
`self.running` is read only when `has_more_messages` is truthy. -/
def drainLoop (env : Env) : Nat → LoopState → DrainResult
  | 0, _ => DrainResult.fuelOut
  | fuel + 1, s =>
    if s.hasMore then
      if env.running s.i then
        match body env { s with i := s.i + 1 } with
        | StepOut.cont s2 => drainLoop env fuel s2
        | StepOut.brk s2 => finalize s2
        | StepOut.raise e evs => DrainResult.exc e evs
      else finalize { s with i := s.i + 1 }
    else finalize s

/-- Lines 133–136: `has_more_messages = True`, `cursor = self.cursor`
(the store read), `messages = []`. -/
def initState (c0 : Option String) : LoopState :=
  { hasMore := true, cursor := c0, messages := [], k := 0, i := 0, events := [] }

/-- Lines 128–171, `forward_next_batches`, started with the persisted
cursor value `c0` read on line 134. -/
def forward_next_batches (env : Env) (c0 : Option String) (fuel : Nat) :
    DrainResult :=
  drainLoop env fuel (initState c0)

/-- Lines 77–85 of `run`: `delta_sleep = self.configuration.frequency -
duration; if delta_sleep > 0: time.sleep(delta_sleep)`.  The returned list
holds the argument of each `time.sleep` call of the cycle, in order. -/
def scheduler_sleeps (frequency duration : Int) : List Int :=
  let delta_sleep := frequency - duration
  if delta_sleep > 0 then [delta_sleep] else []

/-- Lines 71–75: `except (HTTPError, BaseHTTPError)` handles the
exception locally; the bare `except Exception` logs and re-raises.
Returns `true` exactly when the exception is swallowed and the cycle
proceeds to the sleep step. -/
def run_exception_dispatch (e : PyExc) : Bool :=
  match e with
  | PyExc.httpError => true
  | PyExc.baseHttpError => true
  | _ => false

/-- Outcome of one iteration of `run`'s `while self.running` loop:
continue to the next cycle after the listed `time.sleep` calls, or
terminate the scheduler by re-raising `e`.  `loggedExc` records whether
`self.log_exception` was called. -/
inductive CycleOutcome
  | next (loggedExc : Bool) (sleeps : List Int)
  | terminated (loggedExc : Bool) (e : PyExc)
deriving DecidableEq, Repr

/-- Lines 66–85, one iteration of `run`'s loop, given the outcome `res`
of `forward_next_batches` and the measured integer `duration` of the
cycle. -/
def run_cycle (frequency duration : Int) (res : Except PyExc Unit) :
    CycleOutcome :=
  match res with
  | Except.ok _ => CycleOutcome.next false (scheduler_sleeps frequency duration)
  | Except.error e =>
    if run_exception_dispatch e then
      CycleOutcome.next true (scheduler_sleeps frequency duration)
    else
      CycleOutcome.terminated true e

/-- Pointwise order on persisted cursor values: `None` (no cursor yet) is
below everything, strings compare lexicographically (which agrees with
chronological order on the fixed-width RFC3339 strings the vendor
emits). -/
def cursor_le (a b : Option String) : Bool :=
  match a, b with
  | none, _ => true
  | some _, none => false
  | some x, some y => decide (x ≤ y)

/-- Rendering of the spec sentence "the cursor is written back to the
persistent store only after every batch accumulated in that cycle has
been handed to the Forwarder": after any `cursorWrite` in the trace, no
`push` may follow. -/
def cursor_write_after_all_pushes : List Event → Bool
  | [] => true
  | Event.cursorWrite _ :: rest =>
      rest.all (fun e => !e.isPush) && cursor_write_after_all_pushes rest
  | _ :: rest => cursor_write_after_all_pushes rest

/-! ## Concrete fixtures used by witnesses and counterexamples -/

def itemA : Item := { startTime := "2024-01-01T00:00:00.000000Z", payload := "pa" }

def itemB : Item := { startTime := "2024-06-02T00:00:00.000000Z", payload := "pb" }

def itemC : Item := { startTime := "2024-06-01T00:00:00.000000Z", payload := "pc" }

/-- Environment in which every fetch fails (`get_next_events` returns
`None`). -/
def envNoPage : Env :=
  { fetch := fun _ _ => none, running := fun _ => true, chunkSize := 0,
    dumps := fun it => it.payload, parseTs := fun _ => 5, now := 12 }

/-- Environment serving a single one-record page with no next page. -/
def envOnePage : Env :=
  { fetch := fun k _ => if k = 0 then some { nextPage := none, data := [itemA] } else none,
    running := fun _ => true, chunkSize := 0,
    dumps := fun it => it.payload, parseTs := fun _ => 5, now := 12 }

/-- A page that advertises a next page. -/
def pageNext : Batch :=
  { nextPage := some "https://lacework/api/v2/alerts?pg=2", data := [itemA] }

/-- Environment in which every fetch returns `pageNext`. -/
def envNextPage : Env :=
  { fetch := fun _ _ => some pageNext, running := fun _ => true, chunkSize := 0,
    dumps := fun it => it.payload, parseTs := fun _ => 5, now := 12 }

/-- Environment for the C4 scenario: page 1 has records and a `nextPage`
marker; every later fetch — in particular the page-2 fetch — fails with
`None`. -/
def envPage2Fails : Env :=
  { fetch := fun k _ => if k = 0 then some pageNext else none,
    running := fun _ => true, chunkSize := 0,
    dumps := fun it => it.payload, parseTs := fun _ => 5, now := 12 }

/-- A two-record page with a next-page marker (for the C9 scenario). -/
def pageNext2 : Batch :=
  { nextPage := some "https://lacework/api/v2/alerts?pg=2", data := [itemC, itemB] }

def envNextPage2 : Env :=
  { fetch := fun _ _ => some pageNext2, running := fun _ => true, chunkSize := 0,
    dumps := fun it => it.payload, parseTs := fun _ => 5, now := 12 }

/-- Environment whose running flag is already false. -/
def envStop : Env :=
  { fetch := fun _ _ => none, running := fun _ => false, chunkSize := 0,
    dumps := fun it => it.payload, parseTs := fun _ => 0, now := 0 }

/-- A mid-cycle loop state holding two unforwarded messages. -/
def stateC10 : LoopState :=
  { hasMore := true, cursor := some "c", messages := ["m1", "m2"], k := 3, i := 0,
    events := [Event.push ["m0"]] }

/-- A buffer of 1001 serialized records: one more than the default flush
threshold `pagination_limit = max(0, 1000) = 1000`. -/
def bigMsgs : List String := List.replicate 1001 "m"

def envW : Env :=
  { fetch := fun _ _ => none, running := fun _ => true, chunkSize := 0,
    dumps := fun it => it.payload, parseTs := fun _ => 0, now := 0 }

def stateW : LoopState :=
  { hasMore := false, cursor := none, messages := bigMsgs, k := 0, i := 0, events := [] }

def pageW : Batch := { nextPage := none, data := [itemA] }

/-- The lag-gauge events emitted by `afterPaging` for page `b`: one
`lagSet` event when the page has records (computed from the most recent
timestamp of the page), none otherwise.  Derived characterization used in
the structural lemmas. -/
def lagEvents (env : Env) (b : Batch) : List Event :=
  if 0 < b.data.length then
    match get_most_recent_timestamp_from_items env.parseTs b.data with
    | some ts => [Event.lagSet (env.now - ts)]
    | none => []
  else []

/-! ## Structural lemmas about the drain loop -/

set_option maxRecDepth 8000

theorem finalize_eq (s : LoopState) :
    finalize s = DrainResult.ok
      { cursor := s.cursor,
        events := s.events ++ [Event.cursorWrite s.cursor] ++
          (if s.messages.isEmpty then [] else [Event.push s.messages]),
        k := s.k, i := s.i } := by
  unfold finalize
  by_cases h : s.messages.isEmpty <;> simp [h]

theorem finalize_ok_spec (s : LoopState) (out : DrainOut)
    (h : finalize s = DrainResult.ok out) :
    out.cursor = s.cursor ∧
    ∃ post, out.events = s.events ++ [Event.cursorWrite s.cursor] ++ post ∧
      (post = [] ∨ ∃ m, post = [Event.push m]) := by
  rw [finalize_eq] at h
  cases h
  refine ⟨rfl, if s.messages.isEmpty then [] else [Event.push s.messages], rfl, ?_⟩
  by_cases hm : s.messages.isEmpty
  · exact Or.inl (by simp [hm])
  · exact Or.inr ⟨s.messages, by simp [hm]⟩

/-- Closed-form characterization of the post-pagination part of the loop
body: emit the lag event for a non-empty page, extend the buffer with the
page's serialized records, and flush exactly when the buffer exceeds the
threshold. -/
theorem afterPaging_eq (env : Env) (s : LoopState) (b : Batch) :
    afterPaging env s b =
      (if pagination_limit env.chunkSize <
          (s.messages ++ b.data.map env.dumps).length then
        StepOut.cont
          { s with messages := [],
                   events := s.events ++ lagEvents env b ++
                     [Event.push (s.messages ++ b.data.map env.dumps)] }
      else
        StepOut.cont
          { s with messages := s.messages ++ b.data.map env.dumps,
                   events := s.events ++ lagEvents env b }) := by
  unfold afterPaging lagEvents
  by_cases h1 : 0 < b.data.length
  · cases hmr : get_most_recent_timestamp_from_items env.parseTs b.data with
    | none => simp [h1, hmr]
    | some ts => simp [h1, hmr]
  · simp [h1]

theorem lagEvents_all (env : Env) (b : Batch) :
    (lagEvents env b).all (fun e => !e.isCursorWrite) = true := by
  unfold lagEvents
  by_cases h1 : 0 < b.data.length
  · cases hmr : get_most_recent_timestamp_from_items env.parseTs b.data with
    | none => simp [h1, hmr]
    | some ts => simp [h1, hmr, Event.isCursorWrite]
  · simp [h1]

theorem lagEvents_shape (env : Env) (b : Batch) :
    lagEvents env b = [] ∨ ∃ v, lagEvents env b = [Event.lagSet v] := by
  unfold lagEvents
  by_cases h1 : 0 < b.data.length
  · cases hmr : get_most_recent_timestamp_from_items env.parseTs b.data with
    | none => exact Or.inl (by simp [h1, hmr])
    | some ts => exact Or.inr ⟨env.now - ts, by simp [h1, hmr]⟩
  · exact Or.inl (by simp [h1])

/-- Every branch of the part of the loop body after the pagination check
falls through to the condition check, preserves `hasMore` and the
in-memory cursor, and only appends lag/push events (never a cursor
write). -/
theorem afterPaging_cont (env : Env) (s : LoopState) (b : Batch) :
    ∃ s2 t, afterPaging env s b = StepOut.cont s2 ∧
      s2.hasMore = s.hasMore ∧ s2.cursor = s.cursor ∧
      s2.events = s.events ++ t ∧ t.all (fun e => !e.isCursorWrite) = true := by
  rw [afterPaging_eq]
  by_cases h2 : pagination_limit env.chunkSize <
      (s.messages ++ b.data.map env.dumps).length
  · rw [if_pos h2]
    refine ⟨_, lagEvents env b ++ [Event.push (s.messages ++ b.data.map env.dumps)],
      rfl, rfl, rfl, by simp, ?_⟩
    rw [List.all_append, lagEvents_all]
    rfl
  · rw [if_neg h2]
    exact ⟨_, lagEvents env b, rfl, rfl, rfl, rfl, lagEvents_all env b⟩

/-- One execution of the loop body either raises `AttributeError` (the
pagination branch) emitting nothing, or reaches `break`/the next
condition check with the in-memory cursor untouched and only
lag/push events appended. -/
theorem body_cases (env : Env) (s : LoopState) :
    body env s = StepOut.raise PyExc.attributeError s.events ∨
    ∃ s2 t, (body env s = StepOut.brk s2 ∨ body env s = StepOut.cont s2) ∧
      s2.cursor = s.cursor ∧ s2.events = s.events ++ t ∧
      t.all (fun e => !e.isCursorWrite) = true := by
  cases hf : env.fetch s.k s.cursor with
  | none =>
    right
    refine ⟨{ s with hasMore := false, k := s.k + 1 }, [], Or.inl ?_, rfl, by simp, rfl⟩
    unfold body
    simp [hf]
  | some b =>
    by_cases hnp : b.nextPage.isSome
    · left
      unfold body
      simp [hf, hnp, getattrData]
    · right
      obtain ⟨s2, t, heq, _, hc, he, ht⟩ :=
        afterPaging_cont env { s with hasMore := false, k := s.k + 1 } b
      refine ⟨s2, t, Or.inr ?_, hc, he, ht⟩
      unfold body
      simp only [hf]
      simp [hnp]
      exact heq

/-- Every drain cycle that returns normally (for any amount of fuel)
returns with the in-memory cursor equal to the value read at cycle start,
and its trace is: some lag/push events, then exactly one cursor write of
that unchanged value, then at most one final push. -/
theorem drainLoop_ok_spec :
    ∀ (fuel : Nat) (env : Env) (s : LoopState) (out : DrainOut),
      drainLoop env fuel s = DrainResult.ok out →
      out.cursor = s.cursor ∧
      ∃ pre post,
        out.events = s.events ++ pre ++ [Event.cursorWrite s.cursor] ++ post ∧
        pre.all (fun e => !e.isCursorWrite) = true ∧
        (post = [] ∨ ∃ m, post = [Event.push m]) := by
  intro fuel
  induction fuel with
  | zero =>
    intro env s out h
    simp [drainLoop] at h
  | succ n ih =>
    intro env s out h
    rw [drainLoop] at h
    by_cases hm : s.hasMore
    · rw [if_pos hm] at h
      by_cases hr : env.running s.i
      · rw [if_pos hr] at h
        rcases body_cases env { s with i := s.i + 1 } with hb | ⟨s2, t, hbo, hc, he, ht⟩
        · rw [hb] at h
          simp at h
        · rcases hbo with hb | hb
          · rw [hb] at h
            dsimp only at h
            obtain ⟨hcur, post, hev, hpost⟩ := finalize_ok_spec s2 out h
            refine ⟨by simpa [hc] using hcur, t, post, ?_, ht, hpost⟩
            simp [hev, he, hc]
          · rw [hb] at h
            dsimp only at h
            obtain ⟨hcur, ⟨pre', post', hev, hpre', hpost'⟩⟩ := ih env s2 out h
            refine ⟨by simpa [hc] using hcur, t ++ pre', post', ?_, ?_, hpost'⟩
            · simp [hev, he, hc]
            · simp [List.all_append, ht, hpre']
      · rw [if_neg hr] at h
        obtain ⟨hcur, post, hev, hpost⟩ := finalize_ok_spec _ out h
        exact ⟨hcur, [], post, by simpa using hev, rfl, hpost⟩
    · rw [if_neg hm] at h
      obtain ⟨hcur, post, hev, hpost⟩ := finalize_ok_spec s out h
      exact ⟨hcur, [], post, by simpa using hev, rfl, hpost⟩

theorem cursor_le_refl (a : Option String) : cursor_le a a = true := by
  cases a with
  | none => rfl
  | some x => simp [cursor_le]

/-! ## Drain-level claims -/

/-- Claim C1 counterexample: a cycle that fetches one page with a single
record and no next page ends with the trace
`[lagSet, cursorWrite, push]` — the cursor write to the persistent store
happens BEFORE the final batch of that cycle is handed to the Forwarder,
so "the cursor is written back only after every batch accumulated in that
cycle has been handed to the Forwarder" is false on the code. -/
theorem lacework_C1_counterexample :
    forward_next_batches envOnePage (some "c") 5 =
      DrainResult.ok
        { cursor := some "c",
          events := [Event.lagSet 7, Event.cursorWrite (some "c"), Event.push ["pa"]],
          k := 1, i := 1 } ∧
    cursor_write_after_all_pushes
      [Event.lagSet 7, Event.cursorWrite (some "c"), Event.push ["pa"]] = false := by
  constructor
  · decide
  · decide

/-- Claim C1 (amended): in every cycle that completes normally, the
cursor write occurs after all threshold-triggered flushes and before at
most one final flush of leftover records; the value written equals the
cursor read at cycle start (the in-memory cursor never advances), so the
persisted cursor is never advanced past data that has not been
forwarded. -/
theorem lacework_C1_amended (env : Env) (c0 : Option String) (fuel : Nat)
    (out : DrainOut)
    (h : forward_next_batches env c0 fuel = DrainResult.ok out) :
    out.cursor = c0 ∧
    ∃ pre post, out.events = pre ++ [Event.cursorWrite c0] ++ post ∧
      pre.all (fun e => !e.isCursorWrite) = true ∧
      (post = [] ∨ ∃ m, post = [Event.push m]) := by
  have h2 := drainLoop_ok_spec fuel env (initState c0) out h
  simpa [initState] using h2

theorem lacework_C1_witness :
    (some "b" : Option String) = some "b" ∧
    ∃ pre post,
      [Event.cursorWrite (some "b")] = pre ++ [Event.cursorWrite (some "b")] ++ post ∧
      pre.all (fun e => !e.isCursorWrite) = true ∧
      (post = [] ∨ ∃ m, post = [Event.push m]) :=
  lacework_C1_amended envNoPage (some "b") 3
    { cursor := some "b", events := [Event.cursorWrite (some "b")], k := 1, i := 1 }
    (by decide)

/-- Claim C2: whenever a page's records bring the in-memory buffer to `M`
records with `M` above the flush threshold (the `pagination_limit`,
i.e. `max(chunk_size, 1000)`, lines 49–51 and 158), the body performs
exactly one Forwarder call before returning to the loop condition, that
call carries the entire buffer (previous leftovers plus this page's
serialized records, in order), and the buffer is empty immediately
afterwards. -/
theorem lacework_C2 (env : Env) (s : LoopState) (b : Batch)
    (hM : pagination_limit env.chunkSize < s.messages.length + b.data.length) :
    ∃ lag, (lag = [] ∨ ∃ v, lag = [Event.lagSet v]) ∧
      afterPaging env s b = StepOut.cont
        { s with messages := [],
                 events := s.events ++ lag ++
                   [Event.push (s.messages ++ b.data.map env.dumps)] } := by
  have hlen : pagination_limit env.chunkSize <
      (s.messages ++ b.data.map env.dumps).length := by
    simpa [List.length_append, List.length_map] using hM
  rw [afterPaging_eq, if_pos hlen]
  exact ⟨lagEvents env b, lagEvents_shape env b, rfl⟩

theorem lacework_C2_witness :
    pagination_limit envW.chunkSize < stateW.messages.length + pageW.data.length ∧
    ∃ lag, (lag = [] ∨ ∃ v, lag = [Event.lagSet v]) ∧
      afterPaging envW stateW pageW = StepOut.cont
        { stateW with messages := [],
                      events := stateW.events ++ lag ++
                        [Event.push (stateW.messages ++ pageW.data.map envW.dumps)] } :=
  ⟨by decide, lacework_C2 envW stateW pageW (by decide)⟩

/-- Claim C3: whenever the first fetched page's pagination metadata holds
a `nextPage` URL, the cursor-advance line accesses the attribute `data`
on the `dict | None` returned by a duplicate `get_next_events` call,
which raises `AttributeError` in both cases; the drain cycle therefore
never completes normally (it raises with an empty effect trace — nothing
forwarded, no cursor write), and the exception is not one of the handled
HTTP error classes, so `run`'s dispatch re-raises it and the scheduler
terminates. -/
theorem lacework_C3 (env : Env) (c0 : Option String) (fuel : Nat)
    (hf : 1 ≤ fuel) (b : Batch) (hb : env.fetch 0 c0 = some b)
    (hnp : b.nextPage.isSome = true) (hr : env.running 0 = true) :
    forward_next_batches env c0 fuel = DrainResult.exc PyExc.attributeError [] ∧
    run_exception_dispatch PyExc.attributeError = false := by
  obtain ⟨n, rfl⟩ : ∃ n, fuel = n + 1 := ⟨fuel - 1, by omega⟩
  refine ⟨?_, rfl⟩
  unfold forward_next_batches initState
  rw [drainLoop]
  simp [hr, body, hb, hnp, getattrData]

theorem lacework_C3_witness :
    forward_next_batches envNextPage none 2 =
      DrainResult.exc PyExc.attributeError [] ∧
    run_exception_dispatch PyExc.attributeError = false :=
  lacework_C3 envNextPage none 2 (by decide) pageNext rfl rfl rfl

/-- Claim C4 (code-bug evaluation): start a cycle with a persisted
cursor; page 1 arrives with one record and a `nextPage` marker, and the
next `get_next_events` call (the page-2 fetch) returns `None`.  The spec
requires page 1's records to be forwarded and the persisted cursor to
stay at page 1's watermark; the code instead raises `AttributeError`
before page 1's records are even appended, so the cycle forwards nothing
and performs no cursor write (empty effect trace). -/
theorem lacework_C4_bug_eval :
    forward_next_batches envPage2Fails (some "2024-01-01T00:00:00.000000Z") 5 =
      DrainResult.exc PyExc.attributeError [] := by
  decide

/-- Claim C5: in every cycle that completes normally, the cursor value
persisted at the end of the cycle is greater than or equal to (in fact
equal to) the cursor value loaded at the start of the cycle — the
persisted cursor never regresses. -/
theorem lacework_C5 (env : Env) (c0 : Option String) (fuel : Nat)
    (out : DrainOut)
    (h : forward_next_batches env c0 fuel = DrainResult.ok out) :
    cursor_le c0 out.cursor = true := by
  have h2 := (drainLoop_ok_spec fuel env (initState c0) out h).1
  rw [h2]
  exact cursor_le_refl c0

theorem lacework_C5_witness : cursor_le (some "a") (some "a") = true :=
  lacework_C5 envNoPage (some "a") 3
    { cursor := some "a", events := [Event.cursorWrite (some "a")], k := 1, i := 1 }
    (by decide)

/-- Claim C10: the running flag is read by the loop condition before each
page fetch; whenever the loop exits because the flag read false, the
cycle performs no further fetch (`k` is unchanged), still writes the
cursor back, and still flushes any accumulated-but-unforwarded records in
one final Forwarder call before returning. -/
theorem lacework_C10 (env : Env) (fuel : Nat) (s : LoopState)
    (hm : s.hasMore = true) (hr : env.running s.i = false) :
    drainLoop env (fuel + 1) s =
      DrainResult.ok
        { cursor := s.cursor,
          events := s.events ++ [Event.cursorWrite s.cursor] ++
            (if s.messages.isEmpty then [] else [Event.push s.messages]),
          k := s.k, i := s.i + 1 } := by
  rw [drainLoop, if_pos hm, if_neg (by simp [hr]), finalize_eq]

theorem lacework_C10_witness :
    drainLoop envStop 2 stateC10 =
      DrainResult.ok
        { cursor := some "c",
          events := [Event.push ["m0"]] ++ [Event.cursorWrite (some "c")] ++
            (if (["m1", "m2"] : List String).isEmpty then []
             else [Event.push ["m1", "m2"]]),
          k := 3, i := 1 } :=
  lacework_C10 envStop 1 stateC10 rfl rfl

/-! ## Scheduler-level claims -/

/-- Claim C6: for every cycle of measured duration `d` seconds and
configured frequency `f`, the scheduler sleeps a total of exactly
`max(0, f - d)` seconds, via exactly one `time.sleep` call when `d < f`
and via zero calls when `d >= f`; a cycle that completes (normally or
with a locally handled error) always proceeds through this single sleep
computation. -/
theorem lacework_C6 (f d : Int) :
    (scheduler_sleeps f d).sum = max 0 (f - d) ∧
    (scheduler_sleeps f d).length = (if d < f then 1 else 0) ∧
    run_cycle f d (Except.ok ()) = CycleOutcome.next false (scheduler_sleeps f d) := by
  unfold scheduler_sleeps run_cycle
  by_cases h : f - d > 0
  · have hd : d < f := by omega
    have hmax : max 0 (f - d) = f - d := max_eq_right (by omega)
    simp [scheduler_sleeps, h, hd, hmax]
  · have hd : ¬ d < f := by omega
    have hmax : max 0 (f - d) = 0 := max_eq_left (by omega)
    simp [scheduler_sleeps, h, hd, hmax]

/-- Claim C7: an exception raised during a cycle's drain is handled
locally (logged, then the scheduler proceeds to the sleep step and the
next cycle) exactly when it is a `requests` `HTTPError` or a `urllib3`
`HTTPError`; any other exception is logged and re-raised, terminating the
scheduler loop. -/
theorem lacework_C7 (f d : Int) (e : PyExc) :
    ((e = PyExc.httpError ∨ e = PyExc.baseHttpError) →
      run_cycle f d (Except.error e) =
        CycleOutcome.next true (scheduler_sleeps f d)) ∧
    (e ≠ PyExc.httpError → e ≠ PyExc.baseHttpError →
      run_cycle f d (Except.error e) = CycleOutcome.terminated true e) := by
  constructor
  · rintro (rfl | rfl) <;> rfl
  · intro h1 h2
    cases e with
    | httpError => exact absurd rfl h1
    | baseHttpError => exact absurd rfl h2
    | attributeError => rfl
    | otherExc => rfl

/-- Witness for C7 at a concrete transport error and a concrete
unexpected error. -/
theorem lacework_C7_witness :
    run_cycle 60 16 (Except.error PyExc.httpError) =
      CycleOutcome.next true (scheduler_sleeps 60 16) ∧
    run_cycle 60 16 (Except.error PyExc.attributeError) =
      CycleOutcome.terminated true PyExc.attributeError :=
  ⟨(lacework_C7 60 16 PyExc.httpError).1 (Or.inl rfl),
   (lacework_C7 60 16 PyExc.attributeError).2 (by decide) (by decide)⟩

/-- Claim C8: when the persisted cursor is absent (`load` returns
`None`), the fetch request carries no `cursor` parameter and instead uses
the fixed default lookback window `int(time.time()) - 300` as its
`startTime`; the parameter construction is total, so the cycle proceeds
instead of failing. -/
theorem lacework_C8 (chunk_size : Nat) (now : Int) :
    (build_parameters chunk_size none now).cursor = none ∧
    (build_parameters chunk_size none now).startTime = some (now - 300) ∧
    (build_parameters chunk_size none now).limit = pagination_limit chunk_size := by
  refine ⟨rfl, rfl, rfl⟩

/-! ## Claim C9: maximum-based watermark computation -/

/-- `pyStrLt` agrees with the (propositional) strict order on strings. -/
theorem pyStrLt_iff (a b : String) : pyStrLt a b = true ↔ a < b := by
  unfold pyStrLt
  rw [decide_eq_true_iff]
  exact String.lt_iff_toList_lt.symm

/-- Python's binary string `max` agrees with the lattice `max` of the
linear order on strings. -/
theorem strMax_eq_max (a b : String) : strMax a b = max a b := by
  unfold strMax
  by_cases h : pyStrLt a b = true
  · rw [if_pos h, max_eq_right ((pyStrLt_iff a b).mp h).le]
  · rw [if_neg h, max_eq_left (le_of_not_lt fun hc => h ((pyStrLt_iff a b).mpr hc))]

theorem startTime_if_max (a b : Item) :
    (if pyStrLt a.startTime b.startTime then b else a).startTime =
      strMax a.startTime b.startTime := by
  by_cases h : pyStrLt a.startTime b.startTime = true
  · rw [if_pos h]
    unfold strMax
    rw [if_pos h]
  · rw [if_neg h]
    unfold strMax
    rw [if_neg h]

theorem pyMax1_startTime (l : List Item) : ∀ a : Item,
    (pyMax1 a l).startTime =
      List.foldl (fun m it => strMax m it.startTime) a.startTime l := by
  induction l with
  | nil => intro a; rfl
  | cons b l ih =>
    intro a
    show (pyMax1 (if pyStrLt a.startTime b.startTime then b else a) l).startTime = _
    rw [ih, startTime_if_max, List.foldl_cons]

/-- The record selected by Python's `max(items, key=...)` carries exactly
the maximal `startTime` string of the list. -/
theorem pyMaxBy_startTime (l : List Item) :
    (pyMaxByStartTime l).map Item.startTime =
      listMaxString (l.map Item.startTime) := by
  cases l with
  | nil => rfl
  | cons a l =>
    show some (pyMax1 a l).startTime =
      some (List.foldl strMax a.startTime (l.map Item.startTime))
    rw [pyMax1_startTime, List.foldl_map]

/-- The timestamp extracted on lines 119–126 is the parse of the maximal
`startTime` string over all records of the page. -/
theorem gmrtfi_eq (parseTs : String → Int) (l : List Item) :
    get_most_recent_timestamp_from_items parseTs l =
      (listMaxString (l.map Item.startTime)).map parseTs := by
  unfold get_most_recent_timestamp_from_items
  rw [← pyMaxBy_startTime]
  cases pyMaxByStartTime l <;> rfl

/-- Fold step accumulating an optional running maximum (proof-side
characterization of `listMaxString`). -/
def omax (acc : Option String) (x : String) : Option String :=
  match acc with
  | none => some x
  | some m => some (strMax m x)

theorem foldl_omax_some (l : List String) : ∀ a : String,
    List.foldl omax (some a) l = some (List.foldl strMax a l) := by
  induction l with
  | nil => intro a; rfl
  | cons b l ih =>
    intro a
    show List.foldl omax (some (strMax a b)) l = _
    rw [ih]
    rfl

theorem listMaxString_foldl (l : List String) :
    listMaxString l = List.foldl omax none l := by
  cases l with
  | nil => rfl
  | cons a l =>
    show some (List.foldl strMax a l) = List.foldl omax (some a) l
    rw [foldl_omax_some]

theorem omax_comm (acc : Option String) (x y : String) :
    omax (omax acc x) y = omax (omax acc y) x := by
  cases acc with
  | none =>
    show some (strMax x y) = some (strMax y x)
    rw [strMax_eq_max, strMax_eq_max, max_comm]
  | some m =>
    show some (strMax (strMax m x) y) = some (strMax (strMax m y) x)
    simp only [strMax_eq_max]
    rw [max_assoc, max_comm x y, ← max_assoc]

theorem foldl_omax_perm {l l' : List String} (h : l.Perm l') :
    ∀ acc : Option String, List.foldl omax acc l = List.foldl omax acc l' := by
  induction h with
  | nil => intro acc; rfl
  | cons x h ih => intro acc; simp only [List.foldl_cons]; exact ih _
  | swap x y l => intro acc; simp only [List.foldl_cons]; rw [omax_comm]
  | trans h1 h2 ih1 ih2 => intro acc; rw [ih1, ih2]

/-- The maximum of a list of strings does not depend on the order of the
list. -/
theorem listMaxString_perm {l l' : List String} (h : l.Perm l') :
    listMaxString l = listMaxString l' := by
  rw [listMaxString_foldl, listMaxString_foldl]
  exact foldl_omax_perm h none

/-- Claim C9 counterexample: on a page that carries records AND a
`nextPage` marker, the drain raises `AttributeError` with an empty effect
trace — neither a candidate next cursor nor a lag-metric timestamp is
ever computed for that page, although its records have a well-defined
maximal `startTime`. -/
theorem lacework_C9_counterexample :
    forward_next_batches envNextPage2 (some "2024-05-31T00:00:00.000000Z") 5 =
      DrainResult.exc PyExc.attributeError [] ∧
    listMaxString (pageNext2.data.map Item.startTime) =
      some "2024-06-02T00:00:00.000000Z" := by
  constructor
  · decide
  · decide

/-- Claim C9 (amended): for every page whose records reach the
processing step, the lag-metric timestamp is computed as the parse of the
maximum of the `startTime` field over all records of the page — not from
the last record in response order — so the result is invariant under any
permutation of the vendor's response; the candidate-next-cursor
expression on line 146 is also a maximum over `startTime` strings, but
its evaluation raises `AttributeError` before producing a value, so pages
with a `nextPage` marker never reach this computation. -/
theorem lacework_C9_amended (parseTs : String → Int) (l l' : List Item)
    (h : l.Perm l') :
    get_most_recent_timestamp_from_items parseTs l =
      (listMaxString (l.map Item.startTime)).map parseTs ∧
    get_most_recent_timestamp_from_items parseTs l =
      get_most_recent_timestamp_from_items parseTs l' := by
  refine ⟨gmrtfi_eq parseTs l, ?_⟩
  rw [gmrtfi_eq, gmrtfi_eq, listMaxString_perm (h.map Item.startTime)]

theorem lacework_C9_witness :
    get_most_recent_timestamp_from_items (fun s => (s.length : Int)) [itemC, itemB] =
      (listMaxString ([itemC, itemB].map Item.startTime)).map
        (fun s => (s.length : Int)) ∧
    get_most_recent_timestamp_from_items (fun s => (s.length : Int)) [itemC, itemB] =
      get_most_recent_timestamp_from_items (fun s => (s.length : Int)) [itemB, itemC] :=
  lacework_C9_amended (fun s => (s.length : Int)) [itemC, itemB] [itemB, itemC]
    (List.Perm.swap itemB itemC [])

end Lacework
